import Mathlib

namespace JDRfastAPI

/-!
Verification development for the JDRfastAPI backend: a shallow embedding of
the authorization / membership model, the refresh-token lifecycle and the
board engine, with theorems settling the specification claims.

Conventions of the embedding:
* SQLAlchemy rows become Lean structures; a database session becomes an
  explicit record of row lists which the service functions thread through.
* `HTTPException(status_code, detail)` becomes the `ApiError` structure and
  fallible service functions return `Except ApiError α`.
* Python `datetime` values become abstract `Nat` instants (larger = later);
  durations from `settings` stay abstract constants.
* JSON column values become `JsonVal` (scalars, as documented in the model
  comments); JSON dicts become association lists with `List.lookup`
  semantics, and Python float amounts become exact rationals `ℚ`.
-/

/-- Model of `fastapi.HTTPException`: an HTTP status code plus a detail string. -/
structure ApiError where
  statusCode : Nat
  detail : String
deriving DecidableEq, Repr

/-- Mirrors `models/organization.py` `OrganizationRoleType`. -/
inductive OrganizationRoleType where
  | owner
  | admin
  | mj
  | member
  | guest
deriving DecidableEq, Repr, Fintype

/-- Mirrors `models/organization.py` `MembershipStatus`. -/
inductive MembershipStatus where
  | active
  | pending
  | invited
  | suspended
  | banned
deriving DecidableEq, Repr

/-- Mirrors `models/user.py` `GlobalUserRole`. -/
inductive GlobalUserRole where
  | admin
  | user
deriving DecidableEq, Repr

/-- Mirrors `models/organization.py` `OrganizationMembership` row. -/
structure OrganizationMembership where
  id : Nat
  user_id : Nat
  organization_id : Nat
  role : OrganizationRoleType
  status : MembershipStatus
deriving DecidableEq, Repr

/-- Mirrors `models/user.py` `User` row, with the `organization_memberships`
relationship loaded as a list. -/
structure User where
  id : Nat
  email : String
  global_role : GlobalUserRole
  is_active : Bool
  organization_memberships : List OrganizationMembership
deriving DecidableEq, Repr

/-- The `role_hierarchy` dict built inside `User.has_permission_in_org`
(`models/user.py`): guest=0, member=1, mj=2, admin=3, owner=4. -/
def role_hierarchy : OrganizationRoleType → Nat
  | .guest => 0
  | .member => 1
  | .mj => 2
  | .admin => 3
  | .owner => 4

/-- Mirrors `User.get_organization_role` (`models/user.py`): the role of the first
active membership of this user in the given organization, if any. -/
def User.get_organization_role (u : User) (organization_id : Nat) :
    Option OrganizationRoleType :=
  (u.organization_memberships.find? fun m =>
    m.organization_id == organization_id && m.status == MembershipStatus.active).map
    (fun m => m.role)

/-- The rank comparison performed by `User.has_permission_in_org`
(`models/user.py` line 82): the spec calls it `hasAtLeast`. -/
def hasAtLeast (user_role min_role : OrganizationRoleType) : Bool :=
  role_hierarchy user_role ≥ role_hierarchy min_role

/-- Mirrors `User.has_permission_in_org` (`models/user.py`): false when the user has
no active membership in the organization, otherwise the rank comparison. -/
def User.has_permission_in_org (u : User) (organization_id : Nat)
    (min_role : OrganizationRoleType) : Bool :=
  match u.get_organization_role organization_id with
  | none => false
  | some user_role => hasAtLeast user_role min_role

/-! ## Organization service (`services/organization_service.py`) -/

/-- A database session for the organization service: the
`organization_memberships` table. -/
structure OrgDB where
  org_memberships : List OrganizationMembership
deriving DecidableEq, Repr

/-- Mirrors `services/organization_service.py` `update_member_role`, SECOND
definition (lines 362-403) — the one in effect at import time, since Python
lets it shadow the first definition of the same name.  Checks: requester at
least admin, target membership exists, target is not an owner; then writes
the new role.  This definition has no owner-promotion guard. -/
def update_member_role (db : OrgDB) (requester : User) (organization_id : Nat)
    (target_user_id : Nat) (new_role : OrganizationRoleType) :
    Except ApiError (OrgDB × OrganizationMembership) :=
  if !requester.has_permission_in_org organization_id .admin then
    .error ⟨403, "Insufficient permissions"⟩
  else
    match db.org_memberships.find? (fun m =>
      m.user_id == target_user_id && m.organization_id == organization_id) with
    | none => .error ⟨404, "Membership not found"⟩
    | some membership =>
      if membership.role = .owner then
        .error ⟨400, "Cannot change owner role"⟩
      else
        let updated := { membership with role := new_role }
        .ok ({ db with org_memberships := db.org_memberships.map (fun m =>
          if m.id == membership.id then updated else m) }, updated)

/-- Mirrors `services/organization_service.py` `update_member_role`, FIRST
definition (lines 142-191), shadowed by the second at import time.  It
differs by the additional rule (lines 179-185): only an owner may promote a
member to owner. -/
def update_member_role_first_def (db : OrgDB) (requester : User)
    (organization_id : Nat) (target_user_id : Nat)
    (new_role : OrganizationRoleType) :
    Except ApiError (OrgDB × OrganizationMembership) :=
  if !requester.has_permission_in_org organization_id .admin then
    .error ⟨403, "Insufficient permissions - Admin role required"⟩
  else
    match db.org_memberships.find? (fun m =>
      m.user_id == target_user_id && m.organization_id == organization_id) with
    | none => .error ⟨404, "Membership not found"⟩
    | some membership =>
      if membership.role = .owner then
        .error ⟨400, "Cannot change owner role"⟩
      else if new_role = .owner &&
          !requester.has_permission_in_org organization_id .owner then
        .error ⟨403, "Only owners can promote to owner role"⟩
      else
        let updated := { membership with role := new_role }
        .ok ({ db with org_memberships := db.org_memberships.map (fun m =>
          if m.id == membership.id then updated else m) }, updated)

/-- Fixture: organization 1 with an owner (user 1, membership 10), an admin
(user 2, membership 11) and a plain member (user 3, membership 12). -/
def orgFixtureDB : OrgDB :=
  ⟨[⟨10, 1, 1, .owner, .active⟩, ⟨11, 2, 1, .admin, .active⟩,
    ⟨12, 3, 1, .member, .active⟩]⟩

/-- Fixture: user 2, an active admin (not owner) of organization 1. -/
def adminRequester : User :=
  ⟨2, "admin@x.com", .user, true, [⟨11, 2, 1, .admin, .active⟩]⟩

/-- Fixture: user 3, an active plain member of organization 1. -/
def memberRequester : User :=
  ⟨3, "member@x.com", .user, true, [⟨12, 3, 1, .member, .active⟩]⟩

/-! ## Auth service (`services/auth_service.py`) -/

/-- Mirrors `models/user.py` `RefreshToken` row.  Instants are abstract `Nat`
values measured in days (larger = later). -/
structure RefreshTokenRec where
  id : Nat
  token : String
  user_id : Nat
  expires_at : Nat
  revoked : Bool
  created_at : Nat
  revoked_at : Option Nat
deriving DecidableEq, Repr

/-- Mirrors `settings.REFRESH_TOKEN_EXPIRE_DAYS` (`config/settings.py`). -/
def REFRESH_TOKEN_EXPIRE_DAYS : Nat := 7

/-- The `timedelta(days=7)` retention window of `_cleanup_expired_tokens`. -/
def CLEANUP_RETENTION_DAYS : Nat := 7

/-- A database session for the auth service: the `users` and
`refresh_tokens` tables plus the autoincrement counter. -/
structure AuthDB where
  users : List User
  refresh_tokens : List RefreshTokenRec
  next_id : Nat
deriving DecidableEq, Repr

/-- Mirrors `_cleanup_expired_tokens` (`services/auth_service.py`): deletes this
user's tokens that are already expired or whose revocation timestamp is
older than the 7-day retention window (a SQL comparison on a NULL
`revoked_at` is false, hence the `none` branch). -/
def cleanup_expired_tokens (tokens : List RefreshTokenRec)
    (user_id now : Nat) : List RefreshTokenRec :=
  tokens.filter fun t =>
    !(t.user_id == user_id &&
      (decide (t.expires_at < now) ||
       (match t.revoked_at with
        | some r => decide (r < now - CLEANUP_RETENTION_DAYS)
        | none => false)))

/-- Mirrors `renew_token` (`services/auth_service.py`).  `now` stands for
`datetime.utcnow()` and `fresh` for the value returned by
`create_random_refresh_token()`.  The 500 branch models the attribute
error the Python code would raise if the token's user row were missing
(impossible under the foreign-key constraint). -/
def renew_token (db : AuthDB) (refresh_token : String) (now : Nat)
    (fresh : String) : Except ApiError (AuthDB × String) :=
  match db.refresh_tokens.find? (fun t =>
      t.token == refresh_token && t.revoked == false) with
  | none => .error ⟨401, "Invalid refresh token"⟩
  | some token_db =>
    if token_db.expires_at < now then
      .error ⟨401, "Refresh token expired"⟩
    else
      match db.users.find? (fun u => u.id == token_db.user_id) with
      | none => .error ⟨500, "Internal Server Error"⟩
      | some user =>
        if !user.is_active then
          .error ⟨403, "Account is disabled"⟩
        else
          let revokedTokens := db.refresh_tokens.map fun t =>
            if t.id == token_db.id then
              { t with revoked := true, revoked_at := some now }
            else t
          let new_refresh : RefreshTokenRec :=
            ⟨db.next_id, fresh, user.id, now + REFRESH_TOKEN_EXPIRE_DAYS,
             false, now, none⟩
          let afterCleanup :=
            cleanup_expired_tokens (revokedTokens ++ [new_refresh]) user.id now
          .ok ({ db with refresh_tokens := afterCleanup,
                         next_id := db.next_id + 1 }, fresh)

/-- Fixture: one active user holding one live refresh token "r1". -/
def authFixtureDB : AuthDB :=
  ⟨[⟨1, "u@x.com", .user, true, []⟩], [⟨1, "r1", 1, 100, false, 0, none⟩], 2⟩

/-- The state `renew_token authFixtureDB "r1" 50 "r2"` commits: "r1" is
revoked at instant 50 and "r2" is stored live. -/
def authFixtureDB' : AuthDB :=
  ⟨[⟨1, "u@x.com", .user, true, []⟩],
   [⟨1, "r1", 1, 100, true, 0, some 50⟩, ⟨2, "r2", 1, 57, false, 50, none⟩], 3⟩

/-! ## JSON dict columns and Python dict merge -/

/-- JSON scalar values, covering the documented keys of the `dimensions`,
`position` and `content` columns (`models/jdr.py`). -/
inductive JsonVal where
  | jnum (q : ℚ)
  | jstr (s : String)
  | jbool (b : Bool)
deriving DecidableEq, Repr

/-- A JSON object column: an association list over string keys, looked up
with `List.lookup`. -/
abbrev JsonDict := List (String × JsonVal)

/-- The Python dict merge spread used by `update_board` and
`update_board_element` (`services/jdr_service.py`): old entries keep their
place, entries whose key occurs in the patch take the patched value, and
patch-only keys are appended. -/
def dictMerge (old new : JsonDict) : JsonDict :=
  (old.map fun p =>
    match List.lookup p.1 new with
    | some v => (p.1, v)
    | none => p) ++
  new.filter fun p => (List.lookup p.1 old).isNone

/-! ## JDR data model (`models/jdr.py`, `models/image.py`) -/

/-- Mirrors `models/image.py` `ImageAsset` row (only the fields the board engine
reads). -/
structure ImageAsset where
  id : Nat
  url : String
deriving DecidableEq, Repr

/-- Mirrors `models/jdr.py` `ItemTemplate` row with its `image` relationship. -/
structure ItemTemplate where
  id : Nat
  name : String
  image : Option ImageAsset
deriving DecidableEq, Repr

/-- Mirrors `models/jdr.py` `GameItem` row with its `template` and `custom_image`
relationships. -/
structure GameItem where
  id : Nat
  jdr_id : Nat
  template : Option ItemTemplate
  custom_name : Option String
  custom_image : Option ImageAsset
deriving DecidableEq, Repr

/-- Mirrors `GameItem.image_url` (`models/jdr.py` lines 290-302): custom image
first, else the template's image, else none. -/
def GameItem.image_url (g : GameItem) : Option String :=
  match g.custom_image with
  | some img => some img.url
  | none =>
    match g.template with
    | some t =>
      match t.image with
      | some img => some img.url
      | none => none
    | none => none

/-- Mirrors `models/jdr.py` `Character` row with its `avatar_image` relationship.
`gold` is a Python float, modelled as an exact rational. -/
structure Character where
  id : Nat
  jdr_id : Nat
  owner_id : Nat
  name : String
  avatar_image : Option ImageAsset
  gold : ℚ
deriving DecidableEq, Repr

/-- Mirrors `models/jdr.py` `CharacterInventory` row. -/
structure CharacterInventory where
  id : Nat
  character_id : Nat
  game_item_id : Nat
  quantity : Nat
  mj_notes : Option String
deriving DecidableEq, Repr

/-- Mirrors `models/jdr.py` `JDRStatus`. -/
inductive JDRStatus where
  | draft
  | «open»
  | in_progress
  | paused
  | completed
  | cancelled
deriving DecidableEq, Repr

/-- Mirrors `models/jdr.py` `MembershipJDRStatus`. -/
inductive MembershipJDRStatus where
  | pending
  | active
  | rejected
  | kicked
  | left
deriving DecidableEq, Repr

/-- Mirrors `models/jdr.py` `JDRMembership` row. -/
structure JDRMembership where
  id : Nat
  jdr_id : Nat
  user_id : Nat
  status : MembershipJDRStatus
  join_message : Option String
deriving DecidableEq, Repr

/-- Mirrors `models/jdr.py` `JDR` row (`mj_id` is nullable — `ondelete SET NULL`). -/
structure JDR where
  id : Nat
  organization_id : Nat
  mj_id : Option Nat
  status : JDRStatus
  max_players : Nat
deriving DecidableEq, Repr

/-- The `visible_to` JSON descriptor of a board element, recording for each
documented key whether it is present and with which value. -/
structure VisibleTo where
  all : Option Bool
  player_ids : Option (List Nat)
  character_ids : Option (List Nat)
deriving DecidableEq, Repr

/-- Mirrors `models/jdr.py` `BoardElement` row with its `character`, `game_item`
and `image` relationships loaded. -/
structure BoardElement where
  id : Nat
  board_id : Nat
  character_id : Option Nat
  character : Option Character
  game_item : Option GameItem
  image : Option ImageAsset
  content : JsonDict
  position : JsonDict
  is_visible : Bool
  visible_to : VisibleTo
deriving DecidableEq, Repr

/-- Mirrors `BoardElement.image_url` (`models/jdr.py` lines 446-461): the element's
own image, else the linked character's avatar, else the linked game item's
resolved image, else none. -/
def BoardElement.image_url (el : BoardElement) : Option String :=
  let item_url : Option String :=
    match el.game_item with
    | some g => g.image_url
    | none => none
  match el.image with
  | some img => some img.url
  | none =>
    match el.character with
    | some c =>
      match c.avatar_image with
      | some a => some a.url
      | none => item_url
    | none => item_url

/-- Mirrors `models/jdr.py` `Board` row with its `elements` relationship loaded. -/
structure Board where
  id : Nat
  jdr_id : Nat
  name : String
  background_image_id : Option Nat
  dimensions : JsonDict
  elements : List BoardElement
deriving DecidableEq, Repr

/-- A database session for the JDR service. -/
structure JdrDB where
  jdrs : List JDR
  boards : List Board
  jdr_memberships : List JDRMembership
  org_memberships : List OrganizationMembership
  characters : List Character
  game_items : List GameItem
  character_inventory : List CharacterInventory
  images : List ImageAsset
  next_id : Nat
deriving DecidableEq, Repr

/-! ## JDR service (`services/jdr_service.py`) -/

/-- Python truthiness of an optional string (`if data.mj_notes:`). -/
def pyTruthyStr : Option String → Bool
  | some s => !s.isEmpty
  | none => false

/-- Python truthiness of an optional id (`if element.character_id`):
a missing id and the id 0 are both falsy. -/
def pyTruthyId : Option Nat → Bool
  | some n => n != 0
  | none => false

/-- Mirrors `_check_org_membership` (`services/jdr_service.py` lines 21-35):
requires an active organization membership, 403 otherwise. -/
def _check_org_membership (db : JdrDB) (user_id organization_id : Nat) :
    Except ApiError OrganizationMembership :=
  match db.org_memberships.find? (fun m =>
      m.user_id == user_id && m.organization_id == organization_id &&
      m.status == MembershipStatus.active) with
  | none => .error ⟨403, "You must be a member of this organization"⟩
  | some m => .ok m

/-- Mirrors `_check_is_mj` (`services/jdr_service.py` lines 38-48): 404 when the
JDR is missing, 403 when the caller is not its MJ. -/
def _check_is_mj (db : JdrDB) (user : User) (jdr_id : Nat) :
    Except ApiError JDR :=
  match db.jdrs.find? (fun j => j.id == jdr_id) with
  | none => .error ⟨404, "JDR not found"⟩
  | some jdr =>
    if jdr.mj_id != some user.id then
      .error ⟨403, "Only the MJ can perform this action"⟩
    else
      .ok jdr

/-- Mirrors `_check_is_player` (`services/jdr_service.py` lines 51-65): requires an
active JDR membership, 403 otherwise. -/
def _check_is_player (db : JdrDB) (user_id jdr_id : Nat) :
    Except ApiError JDRMembership :=
  match db.jdr_memberships.find? (fun m =>
      m.user_id == user_id && m.jdr_id == jdr_id &&
      m.status == MembershipJDRStatus.active) with
  | none => .error ⟨403, "You must be an active player in this JDR"⟩
  | some m => .ok m

/-- Mirrors `_check_image_exists` (`services/jdr_service.py` lines 68-76). -/
def _check_image_exists (db : JdrDB) (image_id : Nat) :
    Except ApiError ImageAsset :=
  match db.images.find? (fun i => i.id == image_id) with
  | none =>
    .error ⟨404, "Image with id " ++ toString image_id ++ " not found"⟩
  | some image => .ok image

/-- Mirrors `_is_visible_to_user` (`services/jdr_service.py` lines 639-666): an
empty descriptor admits everyone; a truthy `all` admits everyone; else a
present `player_ids` admits exactly the listed user ids; else a present
`character_ids` admits the user exactly when the element has a (truthy)
character id with the character relationship loaded and that character's
owner is the user; else nobody. -/
def _is_visible_to_user (element : BoardElement) (user_id : Nat) : Bool :=
  let visible_to := element.visible_to
  if visible_to.all = none ∧ visible_to.player_ids = none ∧
      visible_to.character_ids = none then
    true
  else if visible_to.all.getD false then
    true
  else
    match visible_to.player_ids with
    | some ids => ids.contains user_id
    | none =>
      match visible_to.character_ids with
      | some _ =>
        if pyTruthyId element.character_id then
          match element.character with
          | some c => c.owner_id == user_id
          | none => false
        else
          false
      | none => false

/-- Mirrors `get_board` (`services/jdr_service.py` lines 423-461): the MJ gets the
board as stored; an active player gets it with the elements filtered by
`is_visible` and `_is_visible_to_user`; anyone else is rejected. -/
def get_board (db : JdrDB) (user : User) (jdr_id : Nat) :
    Except ApiError Board :=
  match db.jdrs.find? (fun j => j.id == jdr_id) with
  | none => .error ⟨404, "JDR not found"⟩
  | some jdr =>
    let fetch : Unit → Except ApiError Board := fun _ =>
      match db.boards.find? (fun b => b.jdr_id == jdr_id) with
      | none => .error ⟨404, "Board not found"⟩
      | some board => .ok board
    if jdr.mj_id == some user.id then
      fetch ()
    else
      match _check_is_player db user.id jdr_id with
      | .error e => .error e
      | .ok _ =>
        match fetch () with
        | .error e => .error e
        | .ok board =>
          .ok { board with elements := board.elements.filter fun el =>
            el.is_visible && _is_visible_to_user el user.id }

/-- Mirrors `join_jdr` (`services/jdr_service.py` lines 144-180). -/
def join_jdr (db : JdrDB) (user : User) (jdr_id : Nat)
    (join_message : Option String) :
    Except ApiError (JdrDB × JDRMembership) :=
  match db.jdrs.find? (fun j => j.id == jdr_id) with
  | none => .error ⟨404, "JDR not found"⟩
  | some jdr =>
    if jdr.status != JDRStatus.«open» &&
        jdr.status != JDRStatus.in_progress then
      .error ⟨400, "This JDR is not accepting new players"⟩
    else
      match _check_org_membership db user.id jdr.organization_id with
      | .error e => .error e
      | .ok _ =>
        if (db.jdr_memberships.find? (fun m =>
            m.user_id == user.id && m.jdr_id == jdr_id &&
            (m.status == MembershipJDRStatus.active ||
             m.status == MembershipJDRStatus.pending))).isSome then
          .error ⟨400, "Already a member or pending approval"⟩
        else if (db.jdr_memberships.filter (fun m =>
            m.jdr_id == jdr_id &&
            m.status == MembershipJDRStatus.active)).length ≥
            jdr.max_players then
          .error ⟨400, "JDR is full"⟩
        else
          let membership : JDRMembership :=
            ⟨db.next_id, jdr_id, user.id, MembershipJDRStatus.pending,
             join_message⟩
          .ok ({ db with
            jdr_memberships := db.jdr_memberships ++ [membership],
            next_id := db.next_id + 1 }, membership)

/-- The payload of `give_item_to_character` (`schemas/jdr.py`
`GiveItemRequest`-equivalent). -/
structure GiveItemData where
  character_id : Nat
  game_item_id : Nat
  quantity : Nat
  mj_notes : Option String
deriving DecidableEq, Repr

/-- Mirrors `give_item_to_character` (`services/jdr_service.py` lines 342-382):
stacks onto the existing `(character, game item)` inventory row if one
exists, otherwise inserts a fresh row. -/
def give_item_to_character (db : JdrDB) (mj : User) (jdr_id : Nat)
    (data : GiveItemData) : Except ApiError (JdrDB × CharacterInventory) :=
  match _check_is_mj db mj jdr_id with
  | .error e => .error e
  | .ok _ =>
    match db.characters.find? (fun c =>
        c.id == data.character_id && c.jdr_id == jdr_id) with
    | none => .error ⟨404, "Character not found in this JDR"⟩
    | some _ =>
      match db.game_items.find? (fun g =>
          g.id == data.game_item_id && g.jdr_id == jdr_id) with
      | none => .error ⟨404, "Item not found in this JDR"⟩
      | some _ =>
        match db.character_inventory.find? (fun ci =>
            ci.character_id == data.character_id &&
            ci.game_item_id == data.game_item_id) with
        | some existing =>
          let updated := { existing with
            quantity := existing.quantity + data.quantity,
            mj_notes := if pyTruthyStr data.mj_notes then data.mj_notes
              else existing.mj_notes }
          .ok ({ db with
            character_inventory := db.character_inventory.map fun ci =>
              if ci.id == existing.id then updated else ci }, updated)
        | none =>
          let inventory : CharacterInventory :=
            ⟨db.next_id, data.character_id, data.game_item_id,
             data.quantity, data.mj_notes⟩
          .ok ({ db with
            character_inventory := db.character_inventory ++ [inventory],
            next_id := db.next_id + 1 }, inventory)

/-- Mirrors `update_character_gold` (`services/jdr_service.py` lines 401-416):
`character.gold = max(0.0, character.gold + amount)`. -/
def update_character_gold (db : JdrDB) (mj : User) (jdr_id character_id : Nat)
    (amount : ℚ) : Except ApiError (JdrDB × Character) :=
  match _check_is_mj db mj jdr_id with
  | .error e => .error e
  | .ok _ =>
    match db.characters.find? (fun c =>
        c.id == character_id && c.jdr_id == jdr_id) with
    | none => .error ⟨404, "Character not found"⟩
    | some character =>
      let updated := { character with gold := max 0 (character.gold + amount) }
      .ok ({ db with characters := db.characters.map fun c =>
        if c.id == character.id then updated else c }, updated)

/-- The `BoardUpdate` schema (`schemas/jdr.py`): fields left as `none`
stand for fields not supplied by the caller (`exclude_unset`). -/
structure BoardUpdate where
  name : Option String
  background_image_id : Option Nat
  dimensions : Option JsonDict
deriving DecidableEq, Repr

/-- Mirrors `update_board` (`services/jdr_service.py` lines 464-489): MJ only; a
supplied background image id must exist; a supplied `dimensions` patch is
merged into the stored map, never substituted for it; remaining supplied
fields are assigned directly. -/
def update_board (db : JdrDB) (mj : User) (jdr_id : Nat)
    (data : BoardUpdate) : Except ApiError (JdrDB × Board) :=
  match _check_is_mj db mj jdr_id with
  | .error e => .error e
  | .ok _ =>
    match db.boards.find? (fun b => b.jdr_id == jdr_id) with
    | none => .error ⟨404, "Board not found"⟩
    | some board =>
      let commit : Unit → Except ApiError (JdrDB × Board) := fun _ =>
        let b1 := match data.dimensions with
          | some patch =>
            { board with dimensions := dictMerge board.dimensions patch }
          | none => board
        let b2 := match data.name with
          | some n => { b1 with name := n }
          | none => b1
        let b3 := match data.background_image_id with
          | some i => { b2 with background_image_id := some i }
          | none => b2
        .ok ({ db with boards := db.boards.map fun b =>
          if b.id == board.id then b3 else b }, b3)
      match data.background_image_id with
      | some image_id =>
        match _check_image_exists db image_id with
        | .error e => .error e
        | .ok _ => commit ()
      | none => commit ()

/-- The `BoardElementUpdate` schema (`schemas/jdr.py`): fields left as
`none` stand for fields not supplied by the caller. -/
structure BoardElementUpdate where
  image_id : Option Nat
  content : Option JsonDict
  position : Option JsonDict
  is_visible : Option Bool
  visible_to : Option VisibleTo
deriving DecidableEq, Repr

/-- Mirrors `update_board_element` (`services/jdr_service.py` lines 538-577): MJ
only; a supplied image id must exist (the reloaded relationship then
carries that asset); supplied `position` and `content` patches are merged
into the stored maps, never substituted; remaining supplied fields are
assigned directly. -/
def update_board_element (db : JdrDB) (mj : User) (jdr_id element_id : Nat)
    (data : BoardElementUpdate) :
    Except ApiError (JdrDB × BoardElement) :=
  match _check_is_mj db mj jdr_id with
  | .error e => .error e
  | .ok _ =>
    match db.boards.find? (fun b => b.jdr_id == jdr_id) with
    | none => .error ⟨404, "Board not found"⟩
    | some board =>
      match board.elements.find? (fun el => el.id == element_id) with
      | none => .error ⟨404, "Board element not found"⟩
      | some element =>
        let commit : Option ImageAsset →
            Except ApiError (JdrDB × BoardElement) := fun img =>
          let e1 := match data.position with
            | some patch =>
              { element with position := dictMerge element.position patch }
            | none => element
          let e2 := match data.content with
            | some patch =>
              { e1 with content := dictMerge e1.content patch }
            | none => e1
          let e3 := match img with
            | some asset => { e2 with image := some asset }
            | none => e2
          let e4 := match data.is_visible with
            | some b => { e3 with is_visible := b }
            | none => e3
          let e5 := match data.visible_to with
            | some v => { e4 with visible_to := v }
            | none => e4
          let board' := { board with elements := board.elements.map fun el =>
            if el.id == element.id then e5 else el }
          .ok ({ db with boards := db.boards.map fun b =>
            if b.id == board.id then board' else b }, e5)
        match data.image_id with
        | some image_id =>
          match _check_image_exists db image_id with
          | .error e => .error e
          | .ok asset => commit (some asset)
        | none => commit none

/-- Fixture: an element carrying a direct image, a linked character with an
avatar and a linked game item — the direct image must win. -/
def elDirectImage : BoardElement :=
  ⟨1, 1, some 4, some ⟨4, 9, 5, "Thorin", some ⟨21, "avatar.png"⟩, 0⟩,
   some ⟨8, 9, some ⟨3, "Sword", some ⟨22, "template.png"⟩⟩, none, none⟩,
   some ⟨20, "direct.png"⟩, [], [], true, ⟨none, none, none⟩⟩

/-- Fixture: an element visible only to player 5. -/
def elPlayerFive : BoardElement :=
  ⟨100, 50, none, none, none, none, [], [], true, ⟨none, some [5], none⟩⟩

/-- Fixture: an element hidden from players (`is_visible = false`). -/
def elHidden : BoardElement :=
  ⟨101, 50, none, none, none, none, [], [], false, ⟨none, none, none⟩⟩

/-- Fixture: a board in JDR 9 carrying both elements. -/
def visFixtureBoard : Board :=
  ⟨50, 9, "Board principal", none, [], [elPlayerFive, elHidden]⟩

/-- Fixture: JDR 9 run by MJ 1, with user 5 as an active player. -/
def visFixtureDB : JdrDB :=
  ⟨[⟨9, 1, some 1, .in_progress, 6⟩], [visFixtureBoard],
   [⟨70, 9, 5, .active, none⟩], [], [], [], [], [], 200⟩

/-- Fixture: the MJ of the fixture JDRs (user 1). -/
def mjUser : User := ⟨1, "mj@x.com", .user, true, []⟩

/-- Fixture: board 60 of JDR 11 with stored dimensions key a = 0. -/
def mergeFixtureBoard : Board :=
  ⟨60, 11, "Board principal", none, [("a", .jnum 0)], []⟩

/-- Fixture: JDR 11 run by MJ 1, holding board 60. -/
def mergeFixtureDB : JdrDB :=
  ⟨[⟨11, 1, some 1, .draft, 6⟩], [mergeFixtureBoard], [], [], [], [], [],
   [], 300⟩

/-- The state after patching dimensions with a = 1. -/
def mergeFixtureDB1 : JdrDB :=
  ⟨[⟨11, 1, some 1, .draft, 6⟩],
   [⟨60, 11, "Board principal", none, [("a", .jnum 1)], []⟩],
   [], [], [], [], [], [], 300⟩

/-- The board after additionally patching dimensions with b = 2: both keys
are present. -/
def mergeBoardBoth : Board :=
  ⟨60, 11, "Board principal", none, [("a", .jnum 1), ("b", .jnum 2)], []⟩

/-- The state after both patches. -/
def mergeFixtureDB2 : JdrDB :=
  ⟨[⟨11, 1, some 1, .draft, 6⟩], [mergeBoardBoth], [], [], [], [], [],
   [], 300⟩

/-- Fixture: open JDR 9 (capacity 6) in organization 1; user 5 is an
active organization member and not yet a session member. -/
def joinFixtureDB : JdrDB :=
  ⟨[⟨9, 1, some 1, .«open», 6⟩], [], [], [⟨40, 5, 1, .member, .active⟩],
   [], [], [], [], 400⟩

/-- Fixture: JDR 9 where character 4 already holds 3 units of item 8
(inventory row 90). -/
def giveFixtureDB : JdrDB :=
  ⟨[⟨9, 1, some 1, .in_progress, 6⟩], [], [], [],
   [⟨4, 9, 5, "Thorin", none, 0⟩], [⟨8, 9, none, some "Potion", none⟩],
   [⟨90, 4, 8, 3, none⟩], [], 500⟩

/-- The state after giving 2 more units of item 8 to character 4. -/
def giveFixtureDB' : JdrDB :=
  ⟨[⟨9, 1, some 1, .in_progress, 6⟩], [], [], [],
   [⟨4, 9, 5, "Thorin", none, 0⟩], [⟨8, 9, none, some "Potion", none⟩],
   [⟨90, 4, 8, 5, none⟩], [], 500⟩

/-- Fixture: character 4 of JDR 9 holds 3 gold. -/
def goldFixtureDB : JdrDB :=
  ⟨[⟨9, 1, some 1, .in_progress, 6⟩], [], [], [],
   [⟨4, 9, 5, "Thorin", none, 3⟩], [], [], [], 600⟩

/-! ## Theorems -/

/-- C6: `hasAtLeast(a,b)` holds exactly when `rank(a) ≥ rank(b)` under the
strict ranking guest=0 < member=1 < mj=2 < admin=3 < owner=4; the induced
order is total and transitive; and a user with no active membership in the
organization satisfies no minimum-role requirement. -/
theorem role_check_spec :
    (role_hierarchy .guest = 0 ∧ role_hierarchy .member = 1 ∧
     role_hierarchy .mj = 2 ∧ role_hierarchy .admin = 3 ∧
     role_hierarchy .owner = 4) ∧
    (∀ a b : OrganizationRoleType,
      hasAtLeast a b = true ↔ role_hierarchy a ≥ role_hierarchy b) ∧
    (∀ a b c : OrganizationRoleType,
      hasAtLeast a b = true → hasAtLeast b c = true → hasAtLeast a c = true) ∧
    (∀ a b : OrganizationRoleType, hasAtLeast a b = true ∨ hasAtLeast b a = true) ∧
    (∀ (u : User) (organization_id : Nat) (min_role : OrganizationRoleType),
      u.get_organization_role organization_id = none →
      u.has_permission_in_org organization_id min_role = false) := by
  refine ⟨by decide, by decide, by decide, by decide, ?_⟩
  intro u organization_id min_role h
  simp [User.has_permission_in_org, h]

/-- Witness for C6 at a concrete user with no memberships. -/
theorem role_check_spec_witness :
    User.has_permission_in_org
      { id := 7, email := "a@x.com", global_role := .user, is_active := true,
        organization_memberships := [] } 1 .guest = false :=
  role_check_spec.2.2.2.2 _ 1 .guest rfl

/-- C1: code-bug evidence.  At the failing input (requester user 2 is an
active admin but not owner of organization 1, target user 3 is a plain
member, requested role owner) the effective `update_member_role` succeeds
and promotes the target to owner, while the first (shadowed) definition of
the same function — the code's own stated rule — rejects the very same call
with 403 Forbidden. -/
theorem update_member_role_admin_can_promote_to_owner :
    update_member_role orgFixtureDB adminRequester 1 3 .owner =
      .ok (⟨[⟨10, 1, 1, .owner, .active⟩, ⟨11, 2, 1, .admin, .active⟩,
             ⟨12, 3, 1, .owner, .active⟩]⟩, ⟨12, 3, 1, .owner, .active⟩) ∧
    update_member_role_first_def orgFixtureDB adminRequester 1 3 .owner =
      .error ⟨403, "Only owners can promote to owner role"⟩ := by
  constructor <;> rfl

/-- C7 counterexample: a changeRole call by a plain-member requester
targeting the owner membership fails 403 Forbidden at the admin-permission
gate — not 400 InvalidInput as the claim states for every requester role. -/
theorem update_member_role_member_requester_forbidden :
    update_member_role orgFixtureDB memberRequester 1 1 .member =
      .error ⟨403, "Insufficient permissions"⟩ := by
  rfl

/-- C7 (amended): a changeRole call targeting an owner membership by a
requester holding at least admin fails 400 InvalidInput, and no successful
`update_member_role` call ever alters a membership whose role is owner
(every owner row survives unchanged), so no role is ever changed away from
owner. -/
theorem owner_role_immutable :
    (∀ (db : OrgDB) (req : User) (organization_id target_user_id : Nat)
       (new_role : OrganizationRoleType) (m : OrganizationMembership),
        req.has_permission_in_org organization_id .admin = true →
        db.org_memberships.find? (fun m' =>
          m'.user_id == target_user_id &&
          m'.organization_id == organization_id) = some m →
        m.role = .owner →
        update_member_role db req organization_id target_user_id new_role =
          .error ⟨400, "Cannot change owner role"⟩) ∧
    (∀ (db : OrgDB) (req : User) (organization_id target_user_id : Nat)
       (new_role : OrganizationRoleType) (db' : OrgDB)
       (res : OrganizationMembership),
        (∀ m₁ ∈ db.org_memberships, ∀ m₂ ∈ db.org_memberships,
          m₁.id = m₂.id → m₁ = m₂) →
        update_member_role db req organization_id target_user_id new_role =
          .ok (db', res) →
        ∀ m ∈ db.org_memberships, m.role = .owner →
          m ∈ db'.org_memberships) := by
  constructor
  · intro db req organization_id target_user_id new_role m hperm hfind hrole
    simp [update_member_role, hperm, hfind, hrole]
  · intro db req organization_id target_user_id new_role db' res huniq hsucc
    intro m hm hrole
    unfold update_member_role at hsucc
    by_cases hperm : req.has_permission_in_org organization_id .admin
    · simp only [hperm, Bool.not_true, Bool.false_eq_true, if_false] at hsucc
      cases hfind : db.org_memberships.find? (fun m' =>
          m'.user_id == target_user_id &&
          m'.organization_id == organization_id) with
      | none => rw [hfind] at hsucc; exact absurd hsucc (by simp)
      | some membership =>
        rw [hfind] at hsucc
        by_cases hro : membership.role = .owner
        · simp [hro] at hsucc
        · simp only [hro, if_false, Except.ok.injEq, Prod.mk.injEq] at hsucc
          obtain ⟨hdb', _⟩ := hsucc
          subst hdb'
          have hmem : membership ∈ db.org_memberships :=
            List.mem_of_find?_eq_some hfind
          have hne : (m.id == membership.id) = false := by
            rcases h : m.id == membership.id
            · rfl
            · exact absurd (huniq m hm membership hmem (by simpa using h))
                (fun he => hro (he ▸ hrole))
          have : (fun m' => if m'.id == membership.id
              then { membership with role := new_role } else m') m = m := by
            simp [hne]
          exact this ▸ List.mem_map_of_mem _ hm
    · simp [hperm] at hsucc

/-- Witness for the amended C7: an admin requester targeting the owner
membership of the fixture organization gets 400 InvalidInput. -/
theorem owner_role_immutable_witness :
    update_member_role orgFixtureDB adminRequester 1 1 .member =
      .error ⟨400, "Cannot change owner role"⟩ :=
  owner_role_immutable.1 orgFixtureDB adminRequester 1 1 .member
    ⟨10, 1, 1, .owner, .active⟩ (by decide) rfl rfl

/-- C3: on every successful renew — assuming the database-enforced
uniqueness of the token column and freshness of the generated token — the
presented token is marked revoked in the same operation that issues the new
token (which is stored unrevoked), and any subsequent renew presenting the
original token fails 401 Unauthenticated: a refresh token renews at most
once. -/
theorem renew_token_single_use :
    ∀ (db : AuthDB) (tok : String) (now : Nat) (fresh : String)
      (db' : AuthDB) (issued : String),
      (∀ t₁ ∈ db.refresh_tokens, ∀ t₂ ∈ db.refresh_tokens,
        t₁.token = t₂.token → t₁.id = t₂.id) →
      fresh ≠ tok →
      renew_token db tok now fresh = .ok (db', issued) →
      issued = fresh ∧
      (∀ t ∈ db'.refresh_tokens, t.token = tok → t.revoked = true) ∧
      (∃ t ∈ db'.refresh_tokens, t.token = fresh ∧ t.revoked = false) ∧
      (∀ (now₂ : Nat) (fresh₂ : String),
        renew_token db' tok now₂ fresh₂ =
          .error ⟨401, "Invalid refresh token"⟩) := by
  intro db tok now fresh db' issued huniq hfresh hsucc
  unfold renew_token at hsucc
  cases hfind : db.refresh_tokens.find? (fun t =>
      t.token == tok && t.revoked == false) with
  | none => rw [hfind] at hsucc; exact absurd hsucc (by simp)
  | some token_db =>
    rw [hfind] at hsucc
    have htok : token_db.token = tok ∧ token_db.revoked = false := by
      have := List.find?_some hfind
      simpa using this
    have htmem : token_db ∈ db.refresh_tokens :=
      List.mem_of_find?_eq_some hfind
    by_cases hexp : token_db.expires_at < now
    · simp [hexp] at hsucc
    · simp only [hexp, if_false] at hsucc
      cases huser : db.users.find? (fun u => u.id == token_db.user_id) with
      | none => rw [huser] at hsucc; exact absurd hsucc (by simp)
      | some user =>
        rw [huser] at hsucc
        by_cases hact : user.is_active
        · simp only [hact, Bool.not_true, Bool.false_eq_true, if_false,
            Except.ok.injEq, Prod.mk.injEq] at hsucc
          obtain ⟨hdb', hiss⟩ := hsucc
          subst hdb'
          -- all records in the committed state that carry the presented
          -- token are revoked
          have hall : ∀ t ∈ ({ db with
              refresh_tokens := cleanup_expired_tokens
                ((db.refresh_tokens.map fun t =>
                  if t.id == token_db.id then
                    { t with revoked := true, revoked_at := some now }
                  else t) ++
                 [⟨db.next_id, fresh, user.id,
                   now + REFRESH_TOKEN_EXPIRE_DAYS, false, now, none⟩])
                user.id now,
              next_id := db.next_id + 1 } : AuthDB).refresh_tokens,
              t.token = tok → t.revoked = true := by
            intro t ht httok
            have ht' := List.mem_of_mem_filter ht
            rcases List.mem_append.mp ht' with hmap | hnew
            · obtain ⟨t0, ht0, hft0⟩ := List.mem_map.mp hmap
              by_cases hid : (t0.id == token_db.id) = true
              · rw [if_pos hid] at hft0
                rw [← hft0]
              · rw [if_neg (by simpa using hid)] at hft0
                subst hft0
                exact absurd (huniq t0 ht0 token_db htmem (httok.trans htok.1.symm))
                  (by simpa using hid)
            · have : t = ⟨db.next_id, fresh, user.id,
                  now + REFRESH_TOKEN_EXPIRE_DAYS, false, now, none⟩ := by
                simpa using hnew
              subst this
              exact absurd httok (by simpa using hfresh)
          refine ⟨hiss.symm, hall, ?_, ?_⟩
          · -- the freshly issued token row is stored, unrevoked
            refine ⟨⟨db.next_id, fresh, user.id,
              now + REFRESH_TOKEN_EXPIRE_DAYS, false, now, none⟩, ?_, rfl, rfl⟩
            apply List.mem_filter.mpr
            refine ⟨List.mem_append.mpr (Or.inr (by simp)), ?_⟩
            simp
          · -- replay of the original token: the lookup for an unrevoked
            -- row with that token value finds nothing
            intro now₂ fresh₂
            unfold renew_token
            have : (cleanup_expired_tokens
                ((db.refresh_tokens.map fun t =>
                  if t.id == token_db.id then
                    { t with revoked := true, revoked_at := some now }
                  else t) ++
                 [⟨db.next_id, fresh, user.id,
                   now + REFRESH_TOKEN_EXPIRE_DAYS, false, now, none⟩])
                user.id now).find? (fun t =>
                  t.token == tok && t.revoked == false) = none := by
              apply List.find?_eq_none.mpr
              intro t ht
              by_cases httok : t.token = tok
              · have := hall t ht httok
                simp [this]
              · simp [httok]
            rw [this]
        · simp [hact] at hsucc

/-- Witness for C3: renewing "r1" succeeds once, and replaying "r1" against
the committed state fails 401. -/
theorem renew_token_single_use_witness :
    renew_token authFixtureDB' "r1" 60 "r3" =
      .error ⟨401, "Invalid refresh token"⟩ :=
  (renew_token_single_use authFixtureDB "r1" 50 "r2" authFixtureDB' "r2"
    (by decide) (by decide) (by rfl)).2.2.2 60 "r3"

theorem lookup_append_dict (k : String) (xs ys : JsonDict) :
    List.lookup k (xs ++ ys) =
      match List.lookup k xs with
      | some v => some v
      | none => List.lookup k ys := by
  induction xs with
  | nil => simp [List.lookup]
  | cons p ps ih =>
    cases hk : k == p.1 <;> simp [List.lookup, hk, ih]

theorem lookup_map_patch (old new : JsonDict) (k : String) :
    List.lookup k (old.map fun p =>
      match List.lookup p.1 new with
      | some v => (p.1, v)
      | none => p) =
      match List.lookup k old with
      | some v => some ((List.lookup k new).getD v)
      | none => none := by
  induction old with
  | nil => simp [List.lookup]
  | cons p ps ih =>
    cases hp : List.lookup p.1 new with
    | some v =>
      cases hk : k == p.1 with
      | true =>
        have hkeq : k = p.1 := by simpa using hk
        subst hkeq
        simp [List.lookup, hp]
      | false => simp [List.lookup, hp, hk, ih]
    | none =>
      cases hk : k == p.1 with
      | true =>
        have hkeq : k = p.1 := by simpa using hk
        subst hkeq
        simp [List.lookup, hp]
      | false => simp [List.lookup, hp, hk, ih]

theorem lookup_filter_new_only (old new : JsonDict) (k : String) :
    List.lookup k (new.filter fun p => (List.lookup p.1 old).isNone) =
      match List.lookup k old with
      | some _ => none
      | none => List.lookup k new := by
  induction new with
  | nil => cases List.lookup k old <;> simp [List.lookup]
  | cons p ps ih =>
    cases hk : k == p.1 with
    | true =>
      have hkeq : k = p.1 := by simpa using hk
      subst hkeq
      cases hp : List.lookup p.1 old with
      | some v => simp [List.filter, List.lookup, hp, ih]
      | none => simp [List.filter, List.lookup, hp]
    | false =>
      cases hp : List.lookup p.1 old with
      | some v => simp [List.filter, List.lookup, hp, hk, ih]
      | none => simp [List.filter, List.lookup, hp, hk, ih]

/-- Lookup semantics of the Python dict merge: keys of the patch win,
keys absent from the patch fall back to the old map. -/
theorem lookup_dictMerge (old new : JsonDict) (k : String) :
    List.lookup k (dictMerge old new) =
      match List.lookup k new with
      | some v => some v
      | none => List.lookup k old := by
  unfold dictMerge
  rw [lookup_append_dict, lookup_map_patch, lookup_filter_new_only]
  cases ho : List.lookup k old <;> cases hn : List.lookup k new <;> simp

/-- C4: a BoardElement's computed image URL follows the strict priority
chain — its own directly-attached image; else the linked character's avatar
when a character with an avatar is linked; else the linked game item's
resolved image; else none — where a GameItem resolves to its custom image,
else its template's image, else none. -/
theorem image_resolution_priority :
    (∀ (el : BoardElement) (img : ImageAsset),
      el.image = some img → el.image_url = some img.url) ∧
    (∀ (el : BoardElement) (c : Character) (a : ImageAsset),
      el.image = none → el.character = some c → c.avatar_image = some a →
      el.image_url = some a.url) ∧
    (∀ (el : BoardElement) (g : GameItem),
      el.image = none → el.character.bind Character.avatar_image = none →
      el.game_item = some g → el.image_url = g.image_url) ∧
    (∀ el : BoardElement,
      el.image = none → el.character.bind Character.avatar_image = none →
      el.game_item = none → el.image_url = none) ∧
    (∀ (g : GameItem) (img : ImageAsset),
      g.custom_image = some img → g.image_url = some img.url) ∧
    (∀ (g : GameItem) (t : ItemTemplate) (img : ImageAsset),
      g.custom_image = none → g.template = some t → t.image = some img →
      g.image_url = some img.url) ∧
    (∀ g : GameItem,
      g.custom_image = none → g.template.bind ItemTemplate.image = none →
      g.image_url = none) := by
  refine ⟨?_, ?_, ?_, ?_, ?_, ?_, ?_⟩
  · intro el img h
    simp [BoardElement.image_url, h]
  · intro el c a h1 h2 h3
    simp [BoardElement.image_url, h1, h2, h3]
  · intro el g h1 h2 h3
    cases hc : el.character with
    | none => simp [BoardElement.image_url, h1, hc, h3]
    | some c =>
      have hca : c.avatar_image = none := by rw [hc] at h2; simpa using h2
      simp [BoardElement.image_url, h1, hc, hca, h3]
  · intro el h1 h2 h3
    cases hc : el.character with
    | none => simp [BoardElement.image_url, h1, hc, h3]
    | some c =>
      have hca : c.avatar_image = none := by rw [hc] at h2; simpa using h2
      simp [BoardElement.image_url, h1, hc, hca, h3]
  · intro g img h
    simp [GameItem.image_url, h]
  · intro g t img h1 h2 h3
    simp [GameItem.image_url, h1, h2, h3]
  · intro g h1 h2
    cases ht : g.template with
    | none => simp [GameItem.image_url, h1, ht]
    | some t =>
      have hti : t.image = none := by rw [ht] at h2; simpa using h2
      simp [GameItem.image_url, h1, ht, hti]

/-- Witness for C4 at the fixture element. -/
theorem image_resolution_priority_witness :
    elDirectImage.image_url = some "direct.png" :=
  image_resolution_priority.1 elDirectImage ⟨20, "direct.png"⟩ rfl

/-- C2: the session's MJ receives the full, unfiltered element set; an
active player receives exactly the stored elements that are `is_visible`
and whose `visible_to` descriptor admits the user — an absent/empty
descriptor or a true `all` admits everyone, a `player_ids` descriptor
admits exactly the listed user ids, and a `character_ids` descriptor admits
the user exactly when the element carries a character link whose loaded
character is owned by this user (denying when the link is missing). -/
theorem get_board_visibility :
    (∀ (db : JdrDB) (user : User) (jdr_id : Nat) (jdr : JDR) (board : Board),
      db.jdrs.find? (fun j => j.id == jdr_id) = some jdr →
      jdr.mj_id = some user.id →
      db.boards.find? (fun b => b.jdr_id == jdr_id) = some board →
      get_board db user jdr_id = .ok board) ∧
    (∀ (db : JdrDB) (user : User) (jdr_id : Nat) (jdr : JDR) (board : Board)
       (m : JDRMembership),
      db.jdrs.find? (fun j => j.id == jdr_id) = some jdr →
      jdr.mj_id ≠ some user.id →
      db.jdr_memberships.find? (fun m' =>
        m'.user_id == user.id && m'.jdr_id == jdr_id &&
        m'.status == MembershipJDRStatus.active) = some m →
      db.boards.find? (fun b => b.jdr_id == jdr_id) = some board →
      get_board db user jdr_id =
        .ok { board with elements := board.elements.filter fun el =>
          el.is_visible && _is_visible_to_user el user.id }) ∧
    (∀ (el : BoardElement) (uid : Nat),
      el.visible_to = ⟨none, none, none⟩ →
      _is_visible_to_user el uid = true) ∧
    (∀ (el : BoardElement) (uid : Nat),
      el.visible_to.all = some true → _is_visible_to_user el uid = true) ∧
    (∀ (el : BoardElement) (uid : Nat) (ids : List Nat),
      el.visible_to = ⟨none, some ids, none⟩ →
      _is_visible_to_user el uid = ids.contains uid) ∧
    (∀ (el : BoardElement) (uid : Nat) (cids : List Nat),
      el.visible_to = ⟨none, none, some cids⟩ →
      (_is_visible_to_user el uid = true ↔
        ∃ cid c, el.character_id = some cid ∧ cid ≠ 0 ∧
          el.character = some c ∧ c.owner_id = uid)) := by
  refine ⟨?_, ?_, ?_, ?_, ?_, ?_⟩
  · intro db user jdr_id jdr board h1 h2 h3
    simp [get_board, h1, h2, h3]
  · intro db user jdr_id jdr board m h1 h2 h3 h4
    have hmj : (jdr.mj_id == some user.id) = false := by
      simpa using h2
    simp [get_board, h1, hmj, _check_is_player, h3, h4]
  · intro el uid h
    simp [_is_visible_to_user, h]
  · intro el uid h
    simp [_is_visible_to_user, h]
  · intro el uid ids h
    simp [_is_visible_to_user, h]
  · intro el uid cids h
    simp only [_is_visible_to_user, h]
    cases hcid : el.character_id with
    | none => simp [pyTruthyId, hcid]
    | some cid =>
      by_cases hz : cid = 0
      · subst hz
        simp [pyTruthyId, hcid]
      · cases hc : el.character with
        | none => simp [pyTruthyId, hcid, hz, hc]
        | some c => simp [pyTruthyId, hcid, hz, hc, beq_iff_eq]

/-- Witness for C2: player 5 sees exactly the element addressed to them;
the hidden element is filtered out. -/
theorem get_board_visibility_witness :
    get_board visFixtureDB ⟨5, "p5@x.com", .user, true, []⟩ 9 =
      .ok { visFixtureBoard with elements := [elPlayerFive] } :=
  get_board_visibility.2.1 visFixtureDB ⟨5, "p5@x.com", .user, true, []⟩ 9
    ⟨9, 1, some 1, .in_progress, 6⟩ visFixtureBoard ⟨70, 9, 5, .active, none⟩
    rfl (by decide) rfl rfl

theorem update_board_ok_dimensions
    {db : JdrDB} {mj : User} {jdr_id : Nat} {data : BoardUpdate}
    {board : Board} {db' : JdrDB} {board' : Board}
    (hb : db.boards.find? (fun b => b.jdr_id == jdr_id) = some board)
    (hsucc : update_board db mj jdr_id data = .ok (db', board')) :
    board'.dimensions =
      match data.dimensions with
      | some patch => dictMerge board.dimensions patch
      | none => board.dimensions := by
  unfold update_board at hsucc
  cases hmj : _check_is_mj db mj jdr_id with
  | error e => simp [hmj] at hsucc
  | ok j =>
    obtain ⟨nm, bg, dims⟩ := data
    cases bg with
    | some image_id =>
      cases hci : _check_image_exists db image_id with
      | error e => simp [hmj, hb, hci] at hsucc
      | ok asset =>
        simp only [hmj, hb, hci, Except.ok.injEq, Prod.mk.injEq] at hsucc
        obtain ⟨-, h2⟩ := hsucc
        subst h2
        cases dims <;> cases nm <;> simp
    | none =>
      simp only [hmj, hb, Except.ok.injEq, Prod.mk.injEq] at hsucc
      obtain ⟨-, h2⟩ := hsucc
      subst h2
      cases dims <;> cases nm <;> simp

theorem update_board_element_ok_maps
    {db : JdrDB} {mj : User} {jdr_id element_id : Nat}
    {data : BoardElementUpdate} {board : Board} {element : BoardElement}
    {db' : JdrDB} {el' : BoardElement}
    (hb : db.boards.find? (fun b => b.jdr_id == jdr_id) = some board)
    (he : board.elements.find? (fun el => el.id == element_id) = some element)
    (hsucc : update_board_element db mj jdr_id element_id data =
      .ok (db', el')) :
    el'.position =
      (match data.position with
       | some patch => dictMerge element.position patch
       | none => element.position) ∧
    el'.content =
      (match data.content with
       | some patch => dictMerge element.content patch
       | none => element.content) := by
  unfold update_board_element at hsucc
  cases hmj : _check_is_mj db mj jdr_id with
  | error e => simp [hmj] at hsucc
  | ok j =>
    obtain ⟨img, cont, pos, vis, vto⟩ := data
    cases img with
    | some image_id =>
      cases hci : _check_image_exists db image_id with
      | error e => simp [hmj, hb, he, hci] at hsucc
      | ok asset =>
        simp only [hmj, hb, he, hci, Except.ok.injEq, Prod.mk.injEq] at hsucc
        obtain ⟨-, h2⟩ := hsucc
        subst h2
        cases pos <;> cases cont <;> cases vis <;> cases vto <;> simp
    | none =>
      simp only [hmj, hb, he, Except.ok.injEq, Prod.mk.injEq] at hsucc
      obtain ⟨-, h2⟩ := hsucc
      subst h2
      cases pos <;> cases cont <;> cases vis <;> cases vto <;> simp

/-- C5: `update_board` merges a supplied `dimensions` patch key-by-key into
the stored map — keys absent from the patch survive, keys present
overwrite, never a wholesale replacement — the same law holds for
`update_board_element` on `position` and `content`, and across two
sequential partial patches both patches' keys are present in the result. -/
theorem board_patch_merge :
    (∀ (db : JdrDB) (mj : User) (jdr_id : Nat) (data : BoardUpdate)
       (board : Board) (patch : JsonDict) (db' : JdrDB) (board' : Board),
      db.boards.find? (fun b => b.jdr_id == jdr_id) = some board →
      data.dimensions = some patch →
      update_board db mj jdr_id data = .ok (db', board') →
      ∀ k, List.lookup k board'.dimensions =
        match List.lookup k patch with
        | some v => some v
        | none => List.lookup k board.dimensions) ∧
    (∀ (db : JdrDB) (mj : User) (jdr_id element_id : Nat)
       (data : BoardElementUpdate) (board : Board) (element : BoardElement)
       (patch : JsonDict) (db' : JdrDB) (el' : BoardElement),
      db.boards.find? (fun b => b.jdr_id == jdr_id) = some board →
      board.elements.find? (fun el => el.id == element_id) = some element →
      data.position = some patch →
      update_board_element db mj jdr_id element_id data = .ok (db', el') →
      ∀ k, List.lookup k el'.position =
        match List.lookup k patch with
        | some v => some v
        | none => List.lookup k element.position) ∧
    (∀ (db : JdrDB) (mj : User) (jdr_id element_id : Nat)
       (data : BoardElementUpdate) (board : Board) (element : BoardElement)
       (patch : JsonDict) (db' : JdrDB) (el' : BoardElement),
      db.boards.find? (fun b => b.jdr_id == jdr_id) = some board →
      board.elements.find? (fun el => el.id == element_id) = some element →
      data.content = some patch →
      update_board_element db mj jdr_id element_id data = .ok (db', el') →
      ∀ k, List.lookup k el'.content =
        match List.lookup k patch with
        | some v => some v
        | none => List.lookup k element.content) ∧
    (∀ (db db1 db2 : JdrDB) (mj : User) (jdr_id : Nat) (d1 d2 : BoardUpdate)
       (b0 b1 b2 : Board) (p1 p2 : JsonDict),
      db.boards.find? (fun b => b.jdr_id == jdr_id) = some b0 →
      d1.dimensions = some p1 →
      d2.dimensions = some p2 →
      update_board db mj jdr_id d1 = .ok (db1, b1) →
      db1.boards.find? (fun b => b.jdr_id == jdr_id) = some b1 →
      update_board db1 mj jdr_id d2 = .ok (db2, b2) →
      ∀ k, List.lookup k b2.dimensions =
        match List.lookup k p2 with
        | some v => some v
        | none =>
          match List.lookup k p1 with
          | some v => some v
          | none => List.lookup k b0.dimensions) := by
  refine ⟨?_, ?_, ?_, ?_⟩
  · intro db mj jdr_id data board patch db' board' hb hd hsucc k
    have := update_board_ok_dimensions hb hsucc
    rw [hd] at this
    rw [this, lookup_dictMerge]
  · intro db mj jdr_id element_id data board element patch db' el'
      hb he hp hsucc k
    have := (update_board_element_ok_maps hb he hsucc).1
    rw [hp] at this
    rw [this, lookup_dictMerge]
  · intro db mj jdr_id element_id data board element patch db' el'
      hb he hp hsucc k
    have := (update_board_element_ok_maps hb he hsucc).2
    rw [hp] at this
    rw [this, lookup_dictMerge]
  · intro db db1 db2 mj jdr_id d1 d2 b0 b1 b2 p1 p2 hb0 hd1 hd2
      hs1 hb1 hs2 k
    have h1 := update_board_ok_dimensions hb0 hs1
    rw [hd1] at h1
    have h2 := update_board_ok_dimensions hb1 hs2
    rw [hd2] at h2
    rw [h2, lookup_dictMerge, h1, lookup_dictMerge]

/-- Witness for C5: after the sequential patches a = 1 then b = 2 both
keys are present — no field loss. -/
theorem board_patch_merge_witness :
    List.lookup "a" mergeBoardBoth.dimensions = some (JsonVal.jnum 1) ∧
    List.lookup "b" mergeBoardBoth.dimensions = some (JsonVal.jnum 2) :=
  ⟨board_patch_merge.2.2.2 mergeFixtureDB mergeFixtureDB1 mergeFixtureDB2
     mjUser 11 ⟨none, none, some [("a", .jnum 1)]⟩
     ⟨none, none, some [("b", .jnum 2)]⟩ mergeFixtureBoard
     ⟨60, 11, "Board principal", none, [("a", .jnum 1)], []⟩ mergeBoardBoth
     [("a", .jnum 1)] [("b", .jnum 2)] rfl rfl rfl rfl rfl rfl "a",
   board_patch_merge.2.2.2 mergeFixtureDB mergeFixtureDB1 mergeFixtureDB2
     mjUser 11 ⟨none, none, some [("a", .jnum 1)]⟩
     ⟨none, none, some [("b", .jnum 2)]⟩ mergeFixtureBoard
     ⟨60, 11, "Board principal", none, [("a", .jnum 1)], []⟩ mergeBoardBoth
     [("a", .jnum 1)] [("b", .jnum 2)] rfl rfl rfl rfl rfl rfl "b"⟩

/-- C8: `join_jdr` fails 404 when the session is missing; 400 when its
status is neither open nor in_progress; 403 when the requester has no
active organization membership in the session's organization; 400 when the
requester already has an active or pending session membership; 400 (full)
when the active-membership count is at least `max_players`; and otherwise
appends exactly one new membership with status pending. -/
theorem join_jdr_spec :
    (∀ (db : JdrDB) (u : User) (jdr_id : Nat) (msg : Option String),
      db.jdrs.find? (fun j => j.id == jdr_id) = none →
      join_jdr db u jdr_id msg = .error ⟨404, "JDR not found"⟩) ∧
    (∀ (db : JdrDB) (u : User) (jdr_id : Nat) (msg : Option String)
       (jdr : JDR),
      db.jdrs.find? (fun j => j.id == jdr_id) = some jdr →
      jdr.status ≠ .«open» → jdr.status ≠ .in_progress →
      join_jdr db u jdr_id msg =
        .error ⟨400, "This JDR is not accepting new players"⟩) ∧
    (∀ (db : JdrDB) (u : User) (jdr_id : Nat) (msg : Option String)
       (jdr : JDR),
      db.jdrs.find? (fun j => j.id == jdr_id) = some jdr →
      (jdr.status = .«open» ∨ jdr.status = .in_progress) →
      (¬ ∃ m ∈ db.org_memberships, m.user_id = u.id ∧
        m.organization_id = jdr.organization_id ∧
        m.status = MembershipStatus.active) →
      join_jdr db u jdr_id msg =
        .error ⟨403, "You must be a member of this organization"⟩) ∧
    (∀ (db : JdrDB) (u : User) (jdr_id : Nat) (msg : Option String)
       (jdr : JDR),
      db.jdrs.find? (fun j => j.id == jdr_id) = some jdr →
      (jdr.status = .«open» ∨ jdr.status = .in_progress) →
      (∃ m ∈ db.org_memberships, m.user_id = u.id ∧
        m.organization_id = jdr.organization_id ∧
        m.status = MembershipStatus.active) →
      (∃ m ∈ db.jdr_memberships, m.user_id = u.id ∧ m.jdr_id = jdr_id ∧
        (m.status = MembershipJDRStatus.active ∨
         m.status = MembershipJDRStatus.pending)) →
      join_jdr db u jdr_id msg =
        .error ⟨400, "Already a member or pending approval"⟩) ∧
    (∀ (db : JdrDB) (u : User) (jdr_id : Nat) (msg : Option String)
       (jdr : JDR),
      db.jdrs.find? (fun j => j.id == jdr_id) = some jdr →
      (jdr.status = .«open» ∨ jdr.status = .in_progress) →
      (∃ m ∈ db.org_memberships, m.user_id = u.id ∧
        m.organization_id = jdr.organization_id ∧
        m.status = MembershipStatus.active) →
      (¬ ∃ m ∈ db.jdr_memberships, m.user_id = u.id ∧ m.jdr_id = jdr_id ∧
        (m.status = MembershipJDRStatus.active ∨
         m.status = MembershipJDRStatus.pending)) →
      jdr.max_players ≤ (db.jdr_memberships.filter (fun m =>
        m.jdr_id == jdr_id &&
        m.status == MembershipJDRStatus.active)).length →
      join_jdr db u jdr_id msg = .error ⟨400, "JDR is full"⟩) ∧
    (∀ (db : JdrDB) (u : User) (jdr_id : Nat) (msg : Option String)
       (jdr : JDR),
      db.jdrs.find? (fun j => j.id == jdr_id) = some jdr →
      (jdr.status = .«open» ∨ jdr.status = .in_progress) →
      (∃ m ∈ db.org_memberships, m.user_id = u.id ∧
        m.organization_id = jdr.organization_id ∧
        m.status = MembershipStatus.active) →
      (¬ ∃ m ∈ db.jdr_memberships, m.user_id = u.id ∧ m.jdr_id = jdr_id ∧
        (m.status = MembershipJDRStatus.active ∨
         m.status = MembershipJDRStatus.pending)) →
      (db.jdr_memberships.filter (fun m =>
        m.jdr_id == jdr_id &&
        m.status == MembershipJDRStatus.active)).length < jdr.max_players →
      join_jdr db u jdr_id msg = .ok
        ({ db with
            jdr_memberships := db.jdr_memberships ++
              [⟨db.next_id, jdr_id, u.id, MembershipJDRStatus.pending, msg⟩],
            next_id := db.next_id + 1 },
         ⟨db.next_id, jdr_id, u.id, MembershipJDRStatus.pending, msg⟩)) := by
  have orgNone : ∀ (db : JdrDB) (u : User) (oid : Nat),
      (¬ ∃ m ∈ db.org_memberships, m.user_id = u.id ∧
        m.organization_id = oid ∧ m.status = MembershipStatus.active) →
      db.org_memberships.find? (fun m =>
        m.user_id == u.id && m.organization_id == oid &&
        m.status == MembershipStatus.active) = none := by
    intro db u oid h
    apply List.find?_eq_none.mpr
    intro m hm hp
    exact h ⟨m, hm, by simpa [and_assoc] using hp⟩
  have orgSome : ∀ (db : JdrDB) (u : User) (oid : Nat),
      (∃ m ∈ db.org_memberships, m.user_id = u.id ∧
        m.organization_id = oid ∧ m.status = MembershipStatus.active) →
      ∃ m0, db.org_memberships.find? (fun m =>
        m.user_id == u.id && m.organization_id == oid &&
        m.status == MembershipStatus.active) = some m0 := by
    intro db u oid h
    apply Option.isSome_iff_exists.mp
    apply List.find?_isSome.mpr
    obtain ⟨m, hm, h₁, h₂, h₃⟩ := h
    exact ⟨m, hm, by simp [h₁, h₂, h₃]⟩
  have exNone : ∀ (db : JdrDB) (u : User) (jdr_id : Nat),
      (¬ ∃ m ∈ db.jdr_memberships, m.user_id = u.id ∧ m.jdr_id = jdr_id ∧
        (m.status = MembershipJDRStatus.active ∨
         m.status = MembershipJDRStatus.pending)) →
      db.jdr_memberships.find? (fun m =>
        m.user_id == u.id && m.jdr_id == jdr_id &&
        (m.status == MembershipJDRStatus.active ||
         m.status == MembershipJDRStatus.pending)) = none := by
    intro db u jdr_id h
    apply List.find?_eq_none.mpr
    intro m hm hp
    refine h ⟨m, hm, ?_⟩
    simpa [and_assoc] using hp
  have exSome : ∀ (db : JdrDB) (u : User) (jdr_id : Nat),
      (∃ m ∈ db.jdr_memberships, m.user_id = u.id ∧ m.jdr_id = jdr_id ∧
        (m.status = MembershipJDRStatus.active ∨
         m.status = MembershipJDRStatus.pending)) →
      (db.jdr_memberships.find? (fun m =>
        m.user_id == u.id && m.jdr_id == jdr_id &&
        (m.status == MembershipJDRStatus.active ||
         m.status == MembershipJDRStatus.pending))).isSome = true := by
    intro db u jdr_id h
    apply List.find?_isSome.mpr
    obtain ⟨m, hm, h₁, h₂, h₃⟩ := h
    refine ⟨m, hm, ?_⟩
    rcases h₃ with h₃ | h₃ <;> simp [h₁, h₂, h₃]
  refine ⟨?_, ?_, ?_, ?_, ?_, ?_⟩
  · intro db u jdr_id msg h
    simp [join_jdr, h]
  · intro db u jdr_id msg jdr h1 h2 h3
    simp [join_jdr, h1, h2, h3]
  · intro db u jdr_id msg jdr h1 h2 h3
    have hfind := orgNone db u jdr.organization_id h3
    rcases h2 with h2 | h2 <;>
      simp [join_jdr, h1, h2, _check_org_membership, hfind]
  · intro db u jdr_id msg jdr h1 h2 h3 h4
    obtain ⟨m0, hm0⟩ := orgSome db u jdr.organization_id h3
    have hex := exSome db u jdr_id h4
    rcases h2 with h2 | h2 <;>
      simp [join_jdr, h1, h2, _check_org_membership, hm0, hex]
  · intro db u jdr_id msg jdr h1 h2 h3 h4 h5
    obtain ⟨m0, hm0⟩ := orgSome db u jdr.organization_id h3
    have hex := exNone db u jdr_id h4
    rcases h2 with h2 | h2 <;>
      simp [join_jdr, h1, h2, _check_org_membership, hm0, hex, h5]
  · intro db u jdr_id msg jdr h1 h2 h3 h4 h5
    obtain ⟨m0, hm0⟩ := orgSome db u jdr.organization_id h3
    have hex := exNone db u jdr_id h4
    have hlt : ¬ (jdr.max_players ≤ (db.jdr_memberships.filter (fun m =>
        m.jdr_id == jdr_id &&
        m.status == MembershipJDRStatus.active)).length) := by omega
    rcases h2 with h2 | h2 <;>
      simp [join_jdr, h1, h2, _check_org_membership, hm0, hex, hlt]

/-- Witness for C8: user 5 joining open JDR 9 gets a pending membership. -/
theorem join_jdr_spec_witness :
    join_jdr joinFixtureDB ⟨5, "p5@x.com", .user, true, []⟩ 9
        (some "please") =
      .ok ({ joinFixtureDB with
          jdr_memberships :=
            [⟨400, 9, 5, MembershipJDRStatus.pending, some "please"⟩],
          next_id := 401 },
        ⟨400, 9, 5, MembershipJDRStatus.pending, some "please"⟩) :=
  join_jdr_spec.2.2.2.2.2 joinFixtureDB ⟨5, "p5@x.com", .user, true, []⟩ 9
    (some "please") ⟨9, 1, some 1, .«open», 6⟩ rfl (Or.inl rfl)
    ⟨⟨40, 5, 1, .member, .active⟩, by simp [joinFixtureDB], rfl, rfl, rfl⟩
    (by simp [joinFixtureDB]) (by simp [joinFixtureDB])

/-- C9: when an inventory row for the same (character, game item) pair
already exists with quantity q, giving n more units updates that same row
in place to quantity q + n and creates no new row; when none exists,
exactly one new row with quantity n is appended. -/
theorem give_item_stacking :
    (∀ (db : JdrDB) (mj : User) (jdr_id : Nat) (data : GiveItemData)
       (ex : CharacterInventory) (db' : JdrDB) (row : CharacterInventory),
      db.character_inventory.find? (fun ci =>
        ci.character_id == data.character_id &&
        ci.game_item_id == data.game_item_id) = some ex →
      give_item_to_character db mj jdr_id data = .ok (db', row) →
      row.id = ex.id ∧ row.character_id = ex.character_id ∧
      row.game_item_id = ex.game_item_id ∧
      row.quantity = ex.quantity + data.quantity ∧
      db'.character_inventory = db.character_inventory.map
        (fun ci => if ci.id == ex.id then row else ci) ∧
      db'.character_inventory.length = db.character_inventory.length) ∧
    (∀ (db : JdrDB) (mj : User) (jdr_id : Nat) (data : GiveItemData)
       (db' : JdrDB) (row : CharacterInventory),
      db.character_inventory.find? (fun ci =>
        ci.character_id == data.character_id &&
        ci.game_item_id == data.game_item_id) = none →
      give_item_to_character db mj jdr_id data = .ok (db', row) →
      row.quantity = data.quantity ∧ row.character_id = data.character_id ∧
      row.game_item_id = data.game_item_id ∧
      db'.character_inventory = db.character_inventory ++ [row]) := by
  constructor
  · intro db mj jdr_id data ex db' row hfind hsucc
    unfold give_item_to_character at hsucc
    cases hmj : _check_is_mj db mj jdr_id with
    | error e => simp [hmj] at hsucc
    | ok j =>
      cases hch : db.characters.find? (fun c =>
          c.id == data.character_id && c.jdr_id == jdr_id) with
      | none => simp [hmj, hch] at hsucc
      | some c =>
        cases hgi : db.game_items.find? (fun g =>
            g.id == data.game_item_id && g.jdr_id == jdr_id) with
        | none => simp [hmj, hch, hgi] at hsucc
        | some g =>
          simp only [hmj, hch, hgi, hfind, Except.ok.injEq,
            Prod.mk.injEq] at hsucc
          obtain ⟨hdb', hrow⟩ := hsucc
          subst hdb'
          subst hrow
          refine ⟨rfl, rfl, rfl, rfl, rfl, ?_⟩
          simp
  · intro db mj jdr_id data db' row hfind hsucc
    unfold give_item_to_character at hsucc
    cases hmj : _check_is_mj db mj jdr_id with
    | error e => simp [hmj] at hsucc
    | ok j =>
      cases hch : db.characters.find? (fun c =>
          c.id == data.character_id && c.jdr_id == jdr_id) with
      | none => simp [hmj, hch] at hsucc
      | some c =>
        cases hgi : db.game_items.find? (fun g =>
            g.id == data.game_item_id && g.jdr_id == jdr_id) with
        | none => simp [hmj, hch, hgi] at hsucc
        | some g =>
          simp only [hmj, hch, hgi, hfind, Except.ok.injEq,
            Prod.mk.injEq] at hsucc
          obtain ⟨hdb', hrow⟩ := hsucc
          subst hdb'
          subst hrow
          exact ⟨rfl, rfl, rfl, rfl⟩

/-- Witness for C9 (end-to-end scenario 5): giving quantity 2 on top of a
held quantity 3 leaves the same single row at quantity 5. -/
theorem give_item_stacking_witness :
    giveFixtureDB'.character_inventory =
      giveFixtureDB.character_inventory.map
        (fun ci => if ci.id == 90 then ⟨90, 4, 8, 5, none⟩ else ci) :=
  (give_item_stacking.1 giveFixtureDB mjUser 9 ⟨4, 8, 2, none⟩
    ⟨90, 4, 8, 3, none⟩ giveFixtureDB' ⟨90, 4, 8, 5, none⟩ rfl
    rfl).2.2.2.2.1

/-- C10: a successful `update_character_gold` sets the character's gold to
max(0, gold + amount); the result is never negative, and deducting more
than the balance clamps it to exactly 0. -/
theorem update_character_gold_clamps :
    ∀ (db : JdrDB) (mj : User) (jdr_id character_id : Nat) (amount : ℚ)
      (c : Character) (db' : JdrDB) (c' : Character),
      db.characters.find? (fun ch =>
        ch.id == character_id && ch.jdr_id == jdr_id) = some c →
      update_character_gold db mj jdr_id character_id amount =
        .ok (db', c') →
      c'.gold = max 0 (c.gold + amount) ∧ 0 ≤ c'.gold ∧
      (c.gold + amount ≤ 0 → c'.gold = 0) := by
  intro db mj jdr_id character_id amount c db' c' hfind hsucc
  unfold update_character_gold at hsucc
  cases hmj : _check_is_mj db mj jdr_id with
  | error e => simp [hmj] at hsucc
  | ok j =>
    simp only [hmj, hfind, Except.ok.injEq, Prod.mk.injEq] at hsucc
    obtain ⟨hdb', hc'⟩ := hsucc
    subst hc'
    refine ⟨rfl, le_max_left 0 _, ?_⟩
    intro hle
    simpa using max_eq_left hle

/-- Witness for C10: deducting 10 gold from a balance of 3 clamps the
balance to exactly 0. -/
theorem update_character_gold_clamps_witness :
    (⟨4, 9, 5, "Thorin", none, max 0 ((3 : ℚ) + (-10))⟩ : Character).gold
      = 0 :=
  (update_character_gold_clamps goldFixtureDB mjUser 9 4 (-10)
    ⟨4, 9, 5, "Thorin", none, 3⟩
    { goldFixtureDB with characters :=
        [⟨4, 9, 5, "Thorin", none, max 0 ((3 : ℚ) + (-10))⟩] }
    ⟨4, 9, 5, "Thorin", none, max 0 ((3 : ℚ) + (-10))⟩ rfl rfl).2.2
    (by norm_num)

end JDRfastAPI
